import Mathlib

/-!
# Verification of the MinecraftServerManager core components

Shallow embedding of the core components of the MinecraftServerManager
repository, together with proofs of the specified properties.

Components embedded here, each from its Python source file:

* `Rcon` — the RCON binary packet codec and the command-exchange state
  handling of `RconClient` (`src/core/rcon.py`);
* `LogWatch` — the log-line event classifier and the online-player state
  (`src/core/log_watcher.py`);
* `AutoShutdown` — the idle-shutdown countdown controller
  (`src/core/auto_shutdown.py`);
* `BackupMgr` — backup rotation, restore and archive creation
  (`src/core/backup_manager.py`);
* `ProcHandler` — the process supervisor start operation
  (`src/core/process_handler.py`).

Machine integers are modelled as `Int`/`Nat` with explicit range checks
mirroring the checks of the Python `struct` module; byte strings are
`List Nat` with each element a byte value; fallible operations return
`Option`/`Except`.
-/

namespace Rcon

/-- Packet type tags from the `PacketType` enum: `COMMAND = 2`,
`AUTH = 3`, `RESPONSE = 0`. -/
def PacketType.COMMAND : Int := 2
def PacketType.AUTH : Int := 3
def PacketType.RESPONSE : Int := 0

/-- Structure `RconPacket` from `rcon.py`.  The Python `payload` field is a `str`;
it is modelled here at the wire level as its UTF-8 byte sequence
(`payload.encode("utf-8")`), since `str.encode("utf-8")` and
`bytes.decode("utf-8")` are mutually inverse on valid UTF-8 text, so the
byte-level round trip is exactly the string-level round trip. -/
structure RconPacket where
  request_id : Int
  packet_type : Int
  payload : List Nat
deriving DecidableEq, Repr

/-- Python `struct.pack("<i", i)`: a signed 32-bit little-endian encoding.
`struct.error` (raised when the value is out of the int32 range) is
modelled by `none`. -/
def packInt32 (i : Int) : Option (List Nat) :=
  if -2147483648 ≤ i ∧ i < 2147483648 then
    let u : Nat := (i % 4294967296).toNat
    some [u % 256, u / 256 % 256, u / 65536 % 256, u / 16777216 % 256]
  else none

/-- Python `struct.unpack("<i", bs)`: decode 4 little-endian bytes as a signed
32-bit integer. -/
def unpackInt32 (bs : List Nat) : Int :=
  let u : Nat := bs.getD 0 0 + 256 * bs.getD 1 0 + 65536 * bs.getD 2 0
      + 16777216 * bs.getD 3 0
  if u < 2147483648 then (u : Int) else (u : Int) - 4294967296

/-- Method `RconPacket.encode`:
`payload_bytes = payload.encode("utf-8") + b"\x00\x00"`;
`length = 4 + 4 + len(payload_bytes)`;
result is `struct.pack("<iii", length, request_id, packet_type) + payload_bytes`. -/
def RconPacket.encode (p : RconPacket) : Option (List Nat) :=
  (packInt32 (4 + 4 + ((p.payload ++ [0, 0]).length : Int))).bind (fun l =>
    (packInt32 p.request_id).bind (fun r =>
      (packInt32 p.packet_type).bind (fun t =>
        some (l ++ r ++ t ++ (p.payload ++ [0, 0])))))

/-- Method `RconPacket.decode`: rejects buffers shorter than 14 bytes with
`ValueError("Packet too short")`; otherwise unpacks
`length, request_id, packet_type` from the first 12 bytes and takes
`data[12:-2]` as the payload. -/
def RconPacket.decode (data : List Nat) : Except String RconPacket :=
  if data.length < 14 then .error "Packet too short"
  else
    let request_id := unpackInt32 ((data.drop 4).take 4)
    let packet_type := unpackInt32 ((data.drop 8).take 4)
    .ok { request_id := request_id, packet_type := packet_type,
          payload := (data.take (data.length - 2)).drop 12 }

/-- Connection-relevant state of `RconClient`: the `_authenticated` flag,
whether a writer is present (`_writer is not None`), and the running
`_request_id` counter. -/
structure RconState where
  authenticated : Bool
  connected : Bool
  request_id : Int
deriving DecidableEq, Repr

/-- Possible outcomes of the write-then-read exchange performed by
`RconClient.command` around `_send_packet`:

* `resp p` — `_send_packet` returned a decoded response packet with
  payload `p`;
* `noResp` — `_send_packet` returned `None` without raising (its
  writer/reader guard), so `command` returns `None` with no state change;
* `ioErrCaught` — `_send_packet` caught `IncompleteReadError`,
  `ConnectionResetError` or `BrokenPipeError` and called `disconnect()`
  (which clears the writer and sets `_authenticated = False`), then
  returned `None`;
* `timeout` — `asyncio.wait_for` raised `TimeoutError`, caught by the
  dedicated `except TimeoutError` branch of `command`;
* `otherExc` — some other exception propagated into the
  `except Exception` branch of `command`, which sets
  `_authenticated = False`. -/
inductive ExchangeOutcome where
  | resp (payload : String)
  | noResp
  | ioErrCaught
  | timeout
  | otherExc
deriving DecidableEq, Repr

/-- The body of `RconClient.command` once past the reconnect preamble:
increments `_request_id`, performs the exchange, and handles the three
failure branches exactly as the Python code does.  Note that the
`except TimeoutError` branch returns `None` without touching
`_authenticated`. -/
def commandBody (st : RconState) (ex : ExchangeOutcome) : Option String × RconState :=
  let st1 : RconState := { st with request_id := st.request_id + 1 }
  match ex with
  | .resp p => (some p, st1)
  | .noResp => (none, st1)
  | .ioErrCaught => (none, { st1 with authenticated := false, connected := false })
  | .timeout => (none, st1)
  | .otherExc => (none, { st1 with authenticated := false })

/-- Method `RconClient.command`.  When `_authenticated` is false it first
attempts one reconnect via `connect()` (modelled abstractly by its
outcome `connectOk`: on success the session is connected and
authenticated, on failure `command` returns `None`).  The third result
component records whether that reconnect attempt was made. -/
def command (st : RconState) (connectOk : Bool) (ex : ExchangeOutcome) :
    Option String × RconState × Bool :=
  if st.authenticated then
    let (r, st2) := commandBody st ex
    (r, st2, false)
  else
    if connectOk then
      let (r, st2) := commandBody { st with authenticated := true, connected := true } ex
      (r, st2, true)
    else (none, { st with authenticated := false }, true)

end Rcon

namespace LogWatch

/-- Enum `EventType` from `log_watcher.py`. -/
inductive EventType where
  | server_starting
  | server_started
  | server_stopping
  | server_stopped
  | player_joined
  | player_left
  | player_chat
  | player_died
  | player_achievement
  | rcon_started
  | world_saved
  | error
  | warning
deriving DecidableEq, Repr

/-- Dataclass `ServerEvent` from `log_watcher.py`.  The `timestamp` field (a
wall-clock `datetime`) is outside the shallow embedding and is omitted;
no claim refers to it. -/
structure ServerEvent where
  event_type : EventType
  player : Option String := none
  message : Option String := none
  raw_line : String := ""
deriving DecidableEq, Repr

/-- Python regex class `\w` (ASCII range; the classified log lines are
ASCII). -/
def wordChar (c : Char) : Bool := c.isAlphanum || c == '_'

/-- Python regex class `\s`. -/
def pySpace (c : Char) : Bool :=
  c == ' ' || c == '\t' || c == '\n' || c == '\r' || c == '\x0b' || c == '\x0c'

/-- Python regex class `[\d.:]`. -/
def digitDotColon (c : Char) : Bool := c.isDigit || c == '.' || c == ':'

/-- Python regex `.` (any character except a newline). -/
def anyNoNl (c : Char) : Bool := !(c == '\n')

/-- Tokens of the compiled form of the regular expressions used by
`LogWatcher`.  Every regex in `LOG_PATTERN` and `PATTERNS` is a
concatenation of: literal characters, non-capturing greedy `cls+` and
`cls*` over a single character class, capturing groups over a greedy
`cls+` or `cls*`, capturing alternations of literal strings, and one
capturing fixed-shape class sequence (the `\d{2}:\d{2}:\d{2}` time
group). -/
inductive Tok where
  | lit (c : Char)
  | plus (p : Char → Bool)
  | star (p : Char → Bool)
  | gplus (p : Char → Bool)
  | gstar (p : Char → Bool)
  | galts (ss : List String)
  | gfixed (ps : List (Char → Bool))

/-- Literal string as a token sequence. -/
def lits (s : String) : List Tok := s.data.map Tok.lit

/-- Length of the maximal prefix of `s` whose characters satisfy `p`. -/
def npfx (p : Char → Bool) : List Char → Nat
  | [] => 0
  | c :: s => if p c then npfx p s + 1 else 0

/-- Backtracking matcher for a token sequence at the start of `s`.
Returns the captured groups (in order of appearance) and the number of
characters consumed.  Greedy repetition with backtracking: candidate
lengths are tried longest first, as the Python `re` engine does.  `fuel`
bounds the recursion depth; every call consumes one token, so a fuel of
`ts.length + 1` is always sufficient. -/
def matchToks : Nat → List Tok → List Char → Option (List String × Nat)
  | 0, _, _ => none
  | _ + 1, [], _ => some ([], 0)
  | fuel + 1, Tok.lit c :: ts, s =>
    match s with
    | [] => none
    | c' :: s' =>
      if c' == c then (matchToks fuel ts s').map (fun r => (r.1, r.2 + 1)) else none
  | fuel + 1, Tok.plus p :: ts, s =>
    let m := npfx p s
    (List.range m).findSome? (fun j =>
      let k := m - j
      (matchToks fuel ts (s.drop k)).map (fun r => (r.1, r.2 + k)))
  | fuel + 1, Tok.star p :: ts, s =>
    let m := npfx p s
    (List.range (m + 1)).findSome? (fun j =>
      let k := m - j
      (matchToks fuel ts (s.drop k)).map (fun r => (r.1, r.2 + k)))
  | fuel + 1, Tok.gplus p :: ts, s =>
    let m := npfx p s
    (List.range m).findSome? (fun j =>
      let k := m - j
      (matchToks fuel ts (s.drop k)).map
        (fun r => (String.mk (s.take k) :: r.1, r.2 + k)))
  | fuel + 1, Tok.gstar p :: ts, s =>
    let m := npfx p s
    (List.range (m + 1)).findSome? (fun j =>
      let k := m - j
      (matchToks fuel ts (s.drop k)).map
        (fun r => (String.mk (s.take k) :: r.1, r.2 + k)))
  | fuel + 1, Tok.galts ss :: ts, s =>
    ss.findSome? (fun a =>
      if s.take a.length == a.data then
        (matchToks fuel ts (s.drop a.length)).map
          (fun r => (a :: r.1, r.2 + a.length))
      else none)
  | fuel + 1, Tok.gfixed ps :: ts, s =>
    if ps.length ≤ s.length
        && (List.zip ps (s.take ps.length)).all (fun pc => pc.1 pc.2) then
      (matchToks fuel ts (s.drop ps.length)).map
        (fun r => (String.mk (s.take ps.length) :: r.1, r.2 + ps.length))
    else none

/-- Python `pattern.match(line)`: anchored match at position 0 (Python `match`
does not require the whole string to be consumed).  Returns the captured
groups and the matched text (group 0). -/
def reAnchored (ts : List Tok) (s : List Char) : Option (List String × String) :=
  (matchToks (ts.length + 1) ts s).map (fun r => (r.1, String.mk (s.take r.2)))

/-- Python `pattern.search(line)`: try every start position left to right and
return the leftmost match, as the Python `re` engine does. -/
def reSearch (ts : List Tok) : List Char → Option (List String × String)
  | [] => reAnchored ts []
  | c :: s' =>
    match reAnchored ts (c :: s') with
    | some r => some r
    | none => reSearch ts s'

/-- Compiled `LOG_PATTERN`:
`\[(\d{2}:\d{2}:\d{2})\]\s*\[([^\]]+)/(\w+)\]:\s*(.*)`. -/
def LOG_PATTERN : List Tok :=
  [Tok.lit '[',
   Tok.gfixed [Char.isDigit, Char.isDigit, (· == ':'), Char.isDigit, Char.isDigit,
               (· == ':'), Char.isDigit, Char.isDigit],
   Tok.lit ']', Tok.star pySpace, Tok.lit '[',
   Tok.gplus (fun c => !(c == ']')), Tok.lit '/', Tok.gplus wordChar,
   Tok.lit ']', Tok.lit ':', Tok.star pySpace, Tok.gstar anyNoNl]

/-- Table `PATTERNS` from `log_watcher.py`, in dict insertion order (the order
`parse_line` iterates them in).  Each entry is the compiled form of the
corresponding regex:

* server_started: `Done \([^)]+\)! For help, type "help"`
* server_stopping: `Stopping the server`
* server_stopped: `Closing Server`
* player_joined: `(\w+)\[/[\d.:]+\] logged in with entity id`
* player_left: `(\w+) left the game`
* player_chat: `<(\w+)>\s+(.+)`
* player_died: `(\w+) (was |died|fell|drowned|burned|blew up|hit the ground|suffocated|starved|withered|experienced kinetic energy)`
* player_achievement: `(\w+) has (made the advancement|completed the challenge|reached the goal) \[(.+)\]`
* rcon_started: `RCON running on [\d.:]+`
* world_saved: `Saved the (game|world)` -/
def PATTERNS : List (EventType × List Tok) :=
  [(EventType.server_started,
      lits "Done (" ++ [Tok.plus (fun c => !(c == ')'))]
        ++ lits ")! For help, type \"help\""),
   (EventType.server_stopping, lits "Stopping the server"),
   (EventType.server_stopped, lits "Closing Server"),
   (EventType.player_joined,
      [Tok.gplus wordChar, Tok.lit '[', Tok.lit '/', Tok.plus digitDotColon]
        ++ lits "] logged in with entity id"),
   (EventType.player_left, [Tok.gplus wordChar] ++ lits " left the game"),
   (EventType.player_chat,
      [Tok.lit '<', Tok.gplus wordChar, Tok.lit '>', Tok.plus pySpace,
       Tok.gplus anyNoNl]),
   (EventType.player_died,
      [Tok.gplus wordChar, Tok.lit ' ',
       Tok.galts ["was ", "died", "fell", "drowned", "burned", "blew up",
                  "hit the ground", "suffocated", "starved", "withered",
                  "experienced kinetic energy"]]),
   (EventType.player_achievement,
      [Tok.gplus wordChar] ++ lits " has "
        ++ [Tok.galts ["made the advancement", "completed the challenge",
                       "reached the goal"]]
        ++ lits " [" ++ [Tok.gplus anyNoNl, Tok.lit ']']),
   (EventType.rcon_started, lits "RCON running on " ++ [Tok.plus digitDotColon]),
   (EventType.world_saved, lits "Saved the " ++ [Tok.galts ["game", "world"]])]

/-- Method `LogWatcher._create_event`: build the event from the match; the
groups used are exactly those the Python code reads (`group(0)` is the
whole matched text, passed here as `whole`). -/
def create_event (et : EventType) (caps : List String) (whole : String)
    (raw : String) : ServerEvent :=
  match et with
  | EventType.player_joined =>
    { event_type := et, player := some (caps.getD 0 ""), raw_line := raw }
  | EventType.player_left =>
    { event_type := et, player := some (caps.getD 0 ""), raw_line := raw }
  | EventType.player_chat =>
    { event_type := et, player := some (caps.getD 0 ""),
      message := some (caps.getD 1 ""), raw_line := raw }
  | EventType.player_died =>
    { event_type := et, player := some (caps.getD 0 ""),
      message := some whole, raw_line := raw }
  | EventType.player_achievement =>
    { event_type := et, player := some (caps.getD 0 ""),
      message := some (caps.getD 2 ""), raw_line := raw }
  | _ => { event_type := et, raw_line := raw }

/-- Method `LogWatcher._update_state`.  The `_online_players` Python set is
modelled as a duplicate-free list: `add` appends when absent, `discard`
filters out, `SERVER_STOPPING` clears.  The guard `and event.player`
treats the empty string as falsy, as Python does. -/
def update_state (e : ServerEvent) (players : List String) : List String :=
  match e.event_type, e.player with
  | EventType.player_joined, some p =>
    if p.isEmpty then players
    else if players.contains p then players else players ++ [p]
  | EventType.player_left, some p =>
    if p.isEmpty then players else players.filter (fun q => !(q == p))
  | EventType.server_stopping, _ => []
  | _, _ => players

/-- Method `LogWatcher.parse_line`, together with the `_update_state` call it
performs on a detected event.  Takes the current online-player state and
the raw line; returns the detected event (if any) and the new state.
The timestamp computation of the Python code is omitted (wall-clock
time); the `message` local of `parse_line` — group 4 of `LOG_PATTERN`
when the line is in standard form, the whole line otherwise — is what
each event pattern is searched in. -/
def parse_line (players : List String) (line : String) :
    Option ServerEvent × List String :=
  if line.data.all pySpace then (none, players)
  else
    let target : String :=
      match reAnchored LOG_PATTERN line.data with
      | some (caps, _) => caps.getD 3 ""
      | none => line
    match PATTERNS.findSome? (fun etp =>
        (reSearch etp.2 target.data).map (fun r => (etp.1, r.1, r.2))) with
    | none => (none, players)
    | some (et, caps, whole) =>
      let ev := create_event et caps whole line
      (some ev, update_state ev players)

/-- Property `LogWatcher.player_count`. -/
def player_count (players : List String) : Nat := players.length

end LogWatch

namespace AutoShutdown

/-- One pass over `self._warning_intervals` at the top of the countdown
loop body, at `remaining` minutes left: for each interval `w` (in list
order) with `remaining <= w` and `w` not yet in `warned`, add `w` to
`warned` and invoke the warning callback with `remaining`.  Returns the
list of `(threshold, remaining)` pairs for the callback invocations made,
in order, and the updated `warned` set (modelled as a list). -/
def warnPass (remaining : Nat) : List Nat → List Nat → List (Nat × Nat) × List Nat
  | [], warned => ([], warned)
  | w :: ws, warned =>
    if remaining ≤ w ∧ w ∉ warned then
      let r := warnPass remaining ws (w :: warned)
      ((w, remaining) :: r.1, r.2)
    else warnPass remaining ws warned

/-- Method `AutoShutdownManager._countdown_loop`.  `remaining` is the loop
variable `remaining_minutes`, `warned` the `warned` set.  `cancelAt`
models cooperative cancellation: `some k` means the countdown task is
cancelled during its `(k+1)`-th `asyncio.sleep(60)` (so `k` full sleeps
complete); `none` means the countdown runs uninterrupted.  Returns the
warning-callback invocations as `(threshold, remaining)` pairs and the
number of shutdown-callback invocations. -/
def countdownLoop (intervals : List Nat) :
    Nat → List Nat → Option Nat → List (Nat × Nat) × Nat
  | 0, _, _ => ([], 1)
  | r + 1, warned, cancelAt =>
    let w := warnPass (r + 1) intervals warned
    match cancelAt with
    | some 0 => (w.1, 0)
    | some (k + 1) =>
      let rest := countdownLoop intervals r w.2 (some k)
      (w.1 ++ rest.1, rest.2)
    | none =>
      let rest := countdownLoop intervals r w.2 none
      (w.1 ++ rest.1, rest.2)

/-- A full countdown run started with `empty_minutes = minutes`:
`_countdown_loop` begins with `remaining_minutes = minutes` and an empty
`warned` set. -/
def countdownRun (minutes : Nat) (intervals : List Nat) (cancelAt : Option Nat) :
    List (Nat × Nat) × Nat :=
  countdownLoop intervals minutes [] cancelAt

/-- Number of warning-callback invocations attributed to threshold `w`
in a countdown run result. -/
def warnCount (w : Nat) (res : List (Nat × Nat) × Nat) : Nat :=
  (res.1.filter (fun pr => pr.1 == w)).length

/-- State of `AutoShutdownManager` relevant to enabling/disabling and the
countdown task: `empty_minutes` (an `Int`, since the configured value may
be non-positive), the `_enabled` flag, and the active countdown task, if
any, as its remaining minutes together with its `warned` set.
`_on_warning`/`_on_shutdown` callback invocations are reported as outputs
of `step`. -/
structure AsmState where
  empty_minutes : Int
  enabled : Bool
  countdown : Option (Nat × List Nat)
deriving DecidableEq, Repr

/-- Constructor `AutoShutdownManager.__init__`: `_enabled = empty_minutes > 0`, no
countdown task. -/
def init (empty_minutes : Int) : AsmState :=
  { empty_minutes := empty_minutes, enabled := empty_minutes > 0, countdown := none }

/-- Observable callback invocations. -/
inductive AsmOut where
  | warned (threshold : Nat) (remaining : Nat)
  | shutdownFired
deriving DecidableEq, Repr

/-- Events driving `AutoShutdownManager`: a
`on_player_count_changed(count)` call, an `enable(minutes)` call (with
`None` modelled as `none`), a `disable()` call, and `tick` — the countdown
task running one loop iteration (its warning pass at the current
`remaining_minutes`, then `asyncio.sleep(60)` completing and the
decrement; when the decrement reaches zero the loop exits and the
shutdown callback fires). -/
inductive AsmEvent where
  | playerCount (n : Nat)
  | enableEv (m : Option Int)
  | disableEv
  | tick
deriving DecidableEq, Repr

/-- Field `self._warning_intervals = [10, 5, 1]` from `__init__`. -/
def warning_intervals : List Nat := [10, 5, 1]

/-- One step of the manager.  Mirrors the Python methods:

* `on_player_count_changed`: returns immediately when `_enabled` is
  false; on `count == 0` calls `_start_countdown` (a no-op when a
  countdown task is already active, otherwise starts one at
  `empty_minutes` with an empty `warned` set); on `count > 0` calls
  `cancel()`.
* `enable(m)`: updates `empty_minutes` when `m` is given and recomputes
  `_enabled = empty_minutes > 0`.  It does NOT cancel an active
  countdown task.
* `disable()`: sets `_enabled = False` and calls `cancel()`.
* `tick`: the active countdown task (if any) performs one loop
  iteration as described at `AsmEvent.tick`. -/
def step (st : AsmState) (ev : AsmEvent) : AsmState × List AsmOut :=
  match ev with
  | .playerCount n =>
    if !st.enabled then (st, [])
    else if n == 0 then
      match st.countdown with
      | some _ => (st, [])
      | none =>
        if st.empty_minutes > 0 then
          ({ st with countdown := some (st.empty_minutes.toNat, []) }, [])
        else ({ st with countdown := some (0, []) }, [])
    else ({ st with countdown := none }, [])
  | .enableEv m =>
    let em := match m with | some v => v | none => st.empty_minutes
    ({ st with empty_minutes := em, enabled := em > 0 }, [])
  | .disableEv => ({ st with enabled := false, countdown := none }, [])
  | .tick =>
    match st.countdown with
    | none => (st, [])
    | some (0, _) => ({ st with countdown := none }, [AsmOut.shutdownFired])
    | some (r + 1, warned) =>
      let w := warnPass (r + 1) warning_intervals warned
      let outs := w.1.map (fun pr => AsmOut.warned pr.1 pr.2)
      if r == 0 then ({ st with countdown := none }, outs ++ [AsmOut.shutdownFired])
      else ({ st with countdown := some (r, w.2) }, outs)

/-- Run a sequence of events, collecting all callback invocations. -/
def run (st : AsmState) : List AsmEvent → AsmState × List AsmOut
  | [] => (st, [])
  | ev :: evs =>
    let r := step st ev
    let rest := run r.1 evs
    (rest.1, r.2 ++ rest.2)

/-- The events the claim about a disabled controller quantifies over:
player-count changes, the passage of time, `disable()`, and `enable`
calls with a non-positive value — everything except an `enable` that
re-enables the controller. -/
def benign : AsmEvent → Prop
  | .playerCount _ => True
  | .tick => True
  | .disableEv => True
  | .enableEv (some v) => v ≤ 0
  | .enableEv none => False

instance : DecidablePred benign := fun ev => by
  cases ev with
  | playerCount n => exact isTrue trivial
  | tick => exact isTrue trivial
  | disableEv => exact isTrue trivial
  | enableEv m => cases m with
    | none => exact isFalse (fun h => h)
    | some v => exact (inferInstance : Decidable (v ≤ 0))

end AutoShutdown

namespace BackupMgr

/-- Enum `BackupType` from `storage/models.py` as used by
`backup_manager.py`. -/
inductive BackupType where
  | auto
  | manual
  | pre_shutdown
deriving DecidableEq, Repr

/-- Record `Backup`, restricted to the fields `rotate_auto_backups`
reads (`backup_type`) plus an identifier standing for the remaining
metadata. -/
structure Backup where
  id : Nat
  backup_type : BackupType
deriving DecidableEq, Repr

/-- The selection logic of `BackupManager.rotate_auto_backups`: filter
`db_backups` (newest first) down to `BackupType.AUTO` entries; if at most
`keep_count` remain, delete nothing; otherwise the entries beyond the
first `keep_count` (the oldest ones) are deleted.  Per-file deletion
failures only affect which deletions are reported back, not which files
are attempted, so the attempted-deletion list is the pure content of the
operation. -/
def rotate_auto_backups (keep_count : Nat) (db_backups : List Backup) :
    List Backup :=
  let auto_backups := db_backups.filter (fun b => b.backup_type == BackupType.auto)
  if auto_backups.length ≤ keep_count then []
  else auto_backups.drop keep_count

/-- Filesystem effects `restore_backup` can perform, in order:
`shutil.rmtree(world_path)`, `world_path.parent.mkdir(...)`, and
`tarfile.extractall` of the archive. -/
inductive FsOp where
  | rmtreeWorld
  | mkdirParent
  | extractArchive
deriving DecidableEq, Repr

/-- Error taxonomy of the backup engine: `FileNotFoundError` and the
wrapped `RuntimeError`. -/
inductive BackupError where
  | notFound
  | runtimeError
deriving DecidableEq, Repr

/-- Method `BackupManager.restore_backup` together with `_restore_archive`,
abstracted over whether the backup archive file and the world directory
exist.  Returns the outcome and the ordered list of filesystem effects
performed: the existence check comes first and nothing is deleted or
extracted when it fails; otherwise `_restore_archive` removes the world
directory (when present), creates the parent directory, and extracts the
archive. -/
def restore_backup (backupExists worldExists : Bool) :
    Except BackupError Unit × List FsOp :=
  if !backupExists then (.error BackupError.notFound, [])
  else
    ((.ok ()),
      (if worldExists then [FsOp.rmtreeWorld] else [])
        ++ [FsOp.mkdirParent, FsOp.extractArchive])

/-- Method `BackupManager._create_archive`: `tar.add(source_path, arcname="world")`.
The source directory is abstracted as the list of its member paths
relative to the directory root; `tar.add` with an `arcname` emits one
entry for the directory itself named `arcname` and one entry
`arcname + "/" + rel` for every member.  The archive is the ordered list
of entry names. -/
def tar_add (relMembers : List String) (arcname : String) : List String :=
  arcname :: relMembers.map (fun r => arcname ++ "/" ++ r)

/-- Wrapper `_create_archive (source_path, dest_path)`: the entries written to
`dest_path` — always `tar_add` with the literal arcname `"world"`,
whatever `source_path` is. -/
def create_archive (source_path : String) (relMembers : List String) :
    List String :=
  tar_add relMembers "world"

end BackupMgr

namespace ProcHandler

/-- The fields of `ProcessHandler` that `start` reads and writes:
`_state.is_running`, `_state.pid`, and whether `_process` is set. -/
structure PHState where
  running : Bool
  pid : Option Nat
  has_process : Bool
deriving DecidableEq, Repr

/-- Property `ProcessHandler.is_running`:
`self._state.is_running and self._process is not None`. -/
def is_running (st : PHState) : Bool := st.running && st.has_process

/-- Outcomes of `ProcessHandler.start`: `ok b` models `return b`
(the docstring: `True if started successfully, False if already
running`), and `spawnError` models the `RuntimeError("Failed to start
server: ...")` raised when `asyncio.create_subprocess_exec` fails. -/
inductive StartResult where
  | ok (b : Bool)
  | spawnError
deriving DecidableEq, Repr

/-- Method `ProcessHandler.start`, abstracted over the OS spawn outcome
(`some pid` when the subprocess is created, `none` when the OS cannot
create it).  When `is_running` the call returns `False` immediately with
no state change; on a successful spawn the state becomes running with
the new pid; on a spawn failure `_state` is reset to
`ProcessState(is_running=False)` (clearing the recorded pid) while
`_process` keeps its previous value, and the error is raised. -/
def start (st : PHState) (spawn : Option Nat) : StartResult × PHState :=
  if is_running st then (StartResult.ok false, st)
  else
    match spawn with
    | some pid =>
      (StartResult.ok true, { running := true, pid := some pid, has_process := true })
    | none =>
      (StartResult.spawnError,
        { running := false, pid := none, has_process := st.has_process })

end ProcHandler

/-! ## Theorems -/

namespace Rcon

/-- Helper: `packInt32` succeeds on every int32-range value, produces 4
bytes, and `unpackInt32` inverts it. -/
theorem packInt32_spec (i : Int) (h1 : -2147483648 ≤ i) (h2 : i < 2147483648) :
    ∃ l, packInt32 i = some l ∧ l.length = 4 ∧ unpackInt32 l = i := by
  refine ⟨[((i % 4294967296).toNat) % 256, (i % 4294967296).toNat / 256 % 256,
           (i % 4294967296).toNat / 65536 % 256,
           (i % 4294967296).toNat / 16777216 % 256],
          by rw [packInt32, if_pos ⟨h1, h2⟩], rfl, ?_⟩
  simp only [unpackInt32, List.getD_cons_zero, List.getD_cons_succ]
  split <;> omega

/-- Helper: dropping a leading block of known length. -/
theorem drop_len (a b : List Nat) (n : Nat) (h : a.length = n) :
    (a ++ b).drop n = b := by
  subst h; exact List.drop_left a b

/-- Helper: taking a leading block of known length. -/
theorem take_len (a b : List Nat) (n : Nat) (h : a.length = n) :
    (a ++ b).take n = a := by
  subst h; exact List.take_left a b

/-- C1: for every `RconPacket` with an int32 correlation id, an int32
type tag, and a payload byte sequence (valid UTF-8, no NUL byte, and
small enough that the `length` field fits in an int32, as `struct.pack`
requires), decoding the bytes produced by `RconPacket.encode` yields a
packet with the original correlation id, type and payload. -/
theorem C1_packet_encode_decode_roundtrip (p : RconPacket)
    (hid1 : -2147483648 ≤ p.request_id) (hid2 : p.request_id < 2147483648)
    (hty1 : -2147483648 ≤ p.packet_type) (hty2 : p.packet_type < 2147483648)
    (hlen : p.payload.length + 10 < 2147483648)
    (hbytes : ∀ b ∈ p.payload, b < 256 ∧ b ≠ 0) :
    ∃ bs, p.encode = some bs ∧ RconPacket.decode bs = .ok p := by
  obtain ⟨pid, pty, pl⟩ := p
  simp only at hid1 hid2 hty1 hty2 hlen hbytes
  obtain ⟨l, hl, hllen, hlval⟩ :=
    packInt32_spec (4 + 4 + ((pl ++ [0, 0]).length : Int))
      (by simp; omega) (by simp; omega)
  obtain ⟨r, hr, hrlen, hrval⟩ := packInt32_spec pid hid1 hid2
  obtain ⟨t, ht, htlen, htval⟩ := packInt32_spec pty hty1 hty2
  refine ⟨l ++ r ++ t ++ (pl ++ [0, 0]), ?_, ?_⟩
  · unfold RconPacket.encode
    rw [hl, hr, ht]
    rfl
  · have hbslen : (l ++ r ++ t ++ (pl ++ [0, 0])).length = pl.length + 14 := by
      simp [hllen, hrlen, htlen]; omega
    have e1 : ((l ++ r ++ t ++ (pl ++ [0, 0])).drop 4).take 4 = r := by
      rw [List.append_assoc (l ++ r) t, List.append_assoc l r]
      rw [drop_len l _ 4 hllen, take_len r _ 4 hrlen]
    have e2 : ((l ++ r ++ t ++ (pl ++ [0, 0])).drop 8).take 4 = t := by
      rw [List.append_assoc (l ++ r) t]
      rw [drop_len (l ++ r) _ 8 (by simp [hllen, hrlen]), take_len t _ 4 htlen]
    have hX : ((l ++ r) ++ t).length = 12 := by simp [hllen, hrlen, htlen]
    have e3 : ((l ++ r ++ t ++ (pl ++ [0, 0])).take
        ((l ++ r ++ t ++ (pl ++ [0, 0])).length - 2)).drop 12 = pl := by
      rw [hbslen]
      rw [show pl.length + 14 - 2 = ((l ++ r) ++ t).length + pl.length by omega]
      rw [List.take_append pl.length,
          List.take_append_of_le_length (Nat.le_refl pl.length),
          List.take_length pl, drop_len ((l ++ r) ++ t) pl 12 hX]
    rw [RconPacket.decode, if_neg (by omega)]
    simp only [e1, e2, e3, hrval, htval]

/-- Witness for C1 at the concrete packet with correlation id `-5`,
type tag `2` (COMMAND) and payload bytes `"hi"`. -/
theorem C1_packet_encode_decode_roundtrip_witness :
    ∃ bs, RconPacket.encode ⟨-5, 2, [104, 105]⟩ = some bs ∧
      RconPacket.decode bs = .ok ⟨-5, 2, [104, 105]⟩ :=
  C1_packet_encode_decode_roundtrip ⟨-5, 2, [104, 105]⟩
    (by decide) (by decide) (by decide) (by decide) (by decide) (by decide)

/-- C8: every byte buffer shorter than 14 bytes is rejected by
`RconPacket.decode` with an error rather than a packet. -/
theorem C8_decode_rejects_short_buffers (data : List Nat)
    (h : data.length < 14) :
    RconPacket.decode data = .error "Packet too short" := by
  rw [RconPacket.decode, if_pos h]

/-- Witness for C8 at a concrete 13-byte buffer. -/
theorem C8_decode_rejects_short_buffers_witness :
    RconPacket.decode [0, 0, 0, 0, 0, 0, 0, 0, 0, 0, 0, 0, 0]
      = .error "Packet too short" :=
  C8_decode_rejects_short_buffers [0, 0, 0, 0, 0, 0, 0, 0, 0, 0, 0, 0, 0]
    (by decide)

end Rcon

namespace Rcon

/-- C7 counterexample: a command exchange on an authenticated session
that ends in a timeout returns `None`, yet the session is still marked
authenticated afterwards — the `except TimeoutError` branch of
`RconClient.command` does not clear `_authenticated`, so the next call
does not attempt a reconnect.  This falsifies the claim that every
exchange ending in a timeout or I/O error marks the session
unauthenticated. -/
theorem C7_timeout_keeps_session_authenticated :
    (command ⟨true, true, 0⟩ true ExchangeOutcome.timeout).1 = none ∧
      (command ⟨true, true, 0⟩ true ExchangeOutcome.timeout).2.1.authenticated = true ∧
      (command ⟨true, true, 0⟩ true ExchangeOutcome.timeout).2.2 = false := by
  decide

/-- C7 (amended): a command exchange on an authenticated session that
ends in an I/O error — either one of the connection errors caught inside
`_send_packet`, which disconnects, or any other exception caught by
`command` — returns `None` and marks the session unauthenticated, and a
call on an unauthenticated session attempts a reconnect; an exchange
that ends in a timeout returns `None` but leaves the session
authenticated. -/
theorem C7_failure_semantics (st : RconState) (connectOk : Bool)
    (hauth : st.authenticated = true) :
    ((command st connectOk ExchangeOutcome.ioErrCaught).1 = none ∧
      (command st connectOk ExchangeOutcome.ioErrCaught).2.1.authenticated = false) ∧
    ((command st connectOk ExchangeOutcome.otherExc).1 = none ∧
      (command st connectOk ExchangeOutcome.otherExc).2.1.authenticated = false) ∧
    ((command st connectOk ExchangeOutcome.timeout).1 = none ∧
      (command st connectOk ExchangeOutcome.timeout).2.1.authenticated = true) ∧
    (∀ (st2 : RconState) (c : Bool) (e : ExchangeOutcome),
      st2.authenticated = false → (command st2 c e).2.2 = true) := by
  refine ⟨?_, ?_, ?_, ?_⟩
  · simp [command, hauth, commandBody]
  · simp [command, hauth, commandBody]
  · simp [command, hauth, commandBody]
  · intro st2 c e hnoauth
    simp only [command, hnoauth]
    cases c <;> simp

/-- Witness for C7 (amended) at a concrete authenticated state. -/
theorem C7_failure_semantics_witness :
    ((command ⟨true, true, 7⟩ false ExchangeOutcome.ioErrCaught).1 = none ∧
      (command ⟨true, true, 7⟩ false ExchangeOutcome.ioErrCaught).2.1.authenticated = false) ∧
    ((command ⟨true, true, 7⟩ false ExchangeOutcome.otherExc).1 = none ∧
      (command ⟨true, true, 7⟩ false ExchangeOutcome.otherExc).2.1.authenticated = false) ∧
    ((command ⟨true, true, 7⟩ false ExchangeOutcome.timeout).1 = none ∧
      (command ⟨true, true, 7⟩ false ExchangeOutcome.timeout).2.1.authenticated = true) ∧
    (∀ (st2 : RconState) (c : Bool) (e : ExchangeOutcome),
      st2.authenticated = false → (command st2 c e).2.2 = true) :=
  C7_failure_semantics ⟨true, true, 7⟩ false rfl

end Rcon

namespace LogWatch

/-- C2: feeding the classifier the line
`[12:34:56] [Server thread/INFO]: Alice[/127.0.0.1:51234] logged in with entity id 5`
starting from an empty online-player set yields a `player_joined` event
with player `Alice` and makes the online-player count 1; subsequently
feeding the line `Alice left the game` yields a `player_left` event and
returns the count to 0. -/
theorem C2_classifier_join_then_leave :
    (parse_line []
        "[12:34:56] [Server thread/INFO]: Alice[/127.0.0.1:51234] logged in with entity id 5").1
      = some { event_type := EventType.player_joined, player := some "Alice",
               message := none,
               raw_line := "[12:34:56] [Server thread/INFO]: Alice[/127.0.0.1:51234] logged in with entity id 5" } ∧
    player_count (parse_line []
        "[12:34:56] [Server thread/INFO]: Alice[/127.0.0.1:51234] logged in with entity id 5").2 = 1 ∧
    (parse_line (parse_line []
        "[12:34:56] [Server thread/INFO]: Alice[/127.0.0.1:51234] logged in with entity id 5").2
        "Alice left the game").1
      = some { event_type := EventType.player_left, player := some "Alice",
               message := none, raw_line := "Alice left the game" } ∧
    player_count (parse_line (parse_line []
        "[12:34:56] [Server thread/INFO]: Alice[/127.0.0.1:51234] logged in with entity id 5").2
        "Alice left the game").2 = 0 := by
  decide

end LogWatch

namespace AutoShutdown

theorem warnPass_count (r w : Nat) : ∀ (ints warned : List Nat),
    ((warnPass r ints warned).1.filter (fun pr => pr.1 == w)).length
      = if w ∉ warned ∧ w ∈ ints ∧ r ≤ w then 1 else 0
  | [], warned => by simp [warnPass]
  | w' :: ws, warned => by
    by_cases hb : r ≤ w' ∧ w' ∉ warned
    · rw [warnPass, if_pos hb]
      by_cases hww : w = w'
      · subst hww
        simp only [List.filter_cons, beq_self_eq_true, if_pos, List.length_cons]
        rw [warnPass_count r w ws (w :: warned)]
        simp [hb.1, hb.2]
      · simp only [List.filter_cons]
        rw [show ((w', r).1 == w) = false by simp [Ne.symm hww]]
        simp only [Bool.false_eq_true, if_false]
        rw [warnPass_count r w ws (w' :: warned)]
        simp only [List.mem_cons, hww]
        congr 1
        simp [hww, Ne.symm hww]
    · rw [warnPass, if_neg hb]
      rw [warnPass_count r w ws warned]
      by_cases hww : w = w'
      · subst hww
        rcases Decidable.not_and_iff_or_not.mp hb with h1 | h2
        · simp only [List.mem_cons]
          rw [if_neg, if_neg] <;> intro hcon <;> exact h1 (by tauto)
        · have hw : w ∈ warned := Decidable.not_not.mp h2
          simp [hw]
      · congr 1
        simp [hww]

theorem warnPass_warned (r w : Nat) : ∀ (ints warned : List Nat),
    w ∈ (warnPass r ints warned).2 ↔ (w ∈ warned ∨ (w ∈ ints ∧ r ≤ w))
  | [], warned => by simp [warnPass]
  | w' :: ws, warned => by
    by_cases hb : r ≤ w' ∧ w' ∉ warned
    · rw [warnPass, if_pos hb]
      rw [warnPass_warned r w ws (w' :: warned)]
      simp only [List.mem_cons]
      constructor
      · rintro ((h | h) | h)
        · exact Or.inr ⟨Or.inl h, h ▸ hb.1⟩
        · exact Or.inl h
        · exact Or.inr ⟨Or.inr h.1, h.2⟩
      · rintro (h | ⟨(h | h), hr⟩)
        · exact Or.inl (Or.inr h)
        · exact Or.inl (Or.inl h)
        · exact Or.inr ⟨h, hr⟩
    · rw [warnPass, if_neg hb]
      rw [warnPass_warned r w ws warned]
      simp only [List.mem_cons]
      rcases Decidable.not_and_iff_or_not.mp hb with h1 | h2
      · constructor
        · rintro (h | h)
          · exact Or.inl h
          · exact Or.inr ⟨Or.inr h.1, h.2⟩
        · rintro (h | ⟨(h | h), hr⟩)
          · exact Or.inl h
          · exact absurd (h ▸ hr) h1
          · exact Or.inr ⟨h, hr⟩
      · have hw' : w' ∈ warned := Decidable.not_not.mp h2
        constructor
        · rintro (h | h)
          · exact Or.inl h
          · exact Or.inr ⟨Or.inr h.1, h.2⟩
        · rintro (h | ⟨(h | h), hr⟩)
          · exact Or.inl h
          · exact Or.inl (h ▸ hw')
          · exact Or.inr ⟨h, hr⟩

theorem countdownLoop_shutdown_none (ints : List Nat) : ∀ (r : Nat) (warned : List Nat),
    (countdownLoop ints r warned none).2 = 1
  | 0, _ => rfl
  | r + 1, warned => by
    rw [countdownLoop]
    exact countdownLoop_shutdown_none ints r (warnPass (r + 1) ints warned).2

theorem countdownLoop_shutdown_cancel (ints : List Nat) :
    ∀ (r : Nat) (warned : List Nat) (k : Nat), k < r →
    (countdownLoop ints r warned (some k)).2 = 0
  | r + 1, warned, 0, _ => by rw [countdownLoop]
  | r + 1, warned, k + 1, hk => by
    rw [countdownLoop]
    exact countdownLoop_shutdown_cancel ints r _ k (by omega)

theorem countdownLoop_warnCount (ints : List Nat) (w : Nat) (hw : 1 ≤ w) :
    ∀ (r : Nat) (warned : List Nat),
    ((countdownLoop ints r warned none).1.filter (fun pr => pr.1 == w)).length
      = if w ∈ ints ∧ w ∉ warned ∧ 1 ≤ r then 1 else 0
  | 0, warned => by simp [countdownLoop]
  | r + 1, warned => by
    rw [countdownLoop]
    simp only [List.filter_append, List.length_append]
    rw [warnPass_count (r + 1) w ints warned,
        countdownLoop_warnCount ints w hw r (warnPass (r + 1) ints warned).2]
    by_cases hmem : w ∈ ints
    · by_cases hwarned : w ∈ warned
      · simp [hwarned, warnPass_warned]
      · by_cases hr1 : r + 1 ≤ w
        · rw [if_pos ⟨hwarned, hmem, hr1⟩, if_neg, if_pos ⟨hmem, hwarned, by omega⟩]
          intro ⟨_, hnot, _⟩
          exact hnot ((warnPass_warned (r + 1) w ints warned).mpr (Or.inr ⟨hmem, hr1⟩))
        · rw [if_neg (by tauto), if_pos, if_pos ⟨hmem, hwarned, by omega⟩]
          refine ⟨hmem, ?_, by omega⟩
          intro hcon
          rcases (warnPass_warned (r + 1) w ints warned).mp hcon with h | h
          · exact hwarned h
          · exact hr1 h.2
    · simp [hmem, warnPass_warned]

end AutoShutdown

namespace AutoShutdown

/-- C3: in every countdown run of `_countdown_loop` each configured
warning threshold triggers the warning callback exactly once and the
shutdown callback fires exactly once when the countdown reaches zero,
while a cancellation during any sleep prevents the shutdown callback;
in particular with `empty_minutes = 3` and warning thresholds `{2, 1}`
an uninterrupted run triggers exactly the warnings `(threshold 2 at
remaining 2)` and `(threshold 1 at remaining 1)` and one shutdown, and a
cancellation during the third sleep (a player join at remaining = 1)
yields the same two warnings and no shutdown. -/
theorem C3_countdown_warnings_and_shutdown (minutes w k : Nat) (ints : List Nat)
    (hmin : 1 ≤ minutes) (hw : 1 ≤ w) (hmem : w ∈ ints) (hk : k < minutes) :
    warnCount w (countdownRun minutes ints none) = 1 ∧
    (countdownRun minutes ints none).2 = 1 ∧
    (countdownRun minutes ints (some k)).2 = 0 ∧
    countdownRun 3 [2, 1] none = ([(2, 2), (1, 1)], 1) ∧
    countdownRun 3 [2, 1] (some 2) = ([(2, 2), (1, 1)], 0) := by
  refine ⟨?_, ?_, ?_, by decide, by decide⟩
  · rw [warnCount, countdownRun, countdownLoop_warnCount ints w hw minutes []]
    simp [hmem, hmin]
  · exact countdownLoop_shutdown_none ints minutes []
  · exact countdownLoop_shutdown_cancel ints minutes [] k hk

/-- Witness for C3 at `minutes = 3`, thresholds `[2, 1]`, threshold
`w = 2`, cancellation during sleep `k = 2`. -/
theorem C3_countdown_warnings_and_shutdown_witness :
    warnCount 2 (countdownRun 3 [2, 1] none) = 1 ∧
    (countdownRun 3 [2, 1] none).2 = 1 ∧
    (countdownRun 3 [2, 1] (some 2)).2 = 0 ∧
    countdownRun 3 [2, 1] none = ([(2, 2), (1, 1)], 1) ∧
    countdownRun 3 [2, 1] (some 2) = ([(2, 2), (1, 1)], 0) :=
  C3_countdown_warnings_and_shutdown 3 2 2 [2, 1]
    (by decide) (by decide) (by decide) (by decide)

end AutoShutdown

namespace AutoShutdown

/-- Helper: one step of a disabled controller with no active countdown
task stays disabled with no task and fires no callback, for every event
other than a re-enabling `enable` call. -/
theorem step_disabled (s : AsmState) (e : AsmEvent)
    (h1 : s.enabled = false) (h2 : s.countdown = none) (hb : benign e) :
    (step s e).1.enabled = false ∧ (step s e).1.countdown = none ∧
      (step s e).2 = [] := by
  cases e with
  | playerCount n => simp [step, h1, h2]
  | enableEv m =>
    cases m with
    | none => exact absurd hb (fun h => h)
    | some v =>
      have hv : v ≤ 0 := hb
      have : decide (v > 0) = false := by
        simp only [decide_eq_false_iff_not]
        omega
      simp [step, this, h2]
  | disableEv => simp [step]
  | tick => simp [step, h1, h2]

/-- C10 (amended): a controller that is disabled with no active
countdown task — as after construction with `empty_minutes ≤ 0`, and as
after an `enable` call with a non-positive value made while no countdown
is active — stays disabled under every sequence of player-count changes,
ticks, `disable` calls and non-positive `enable` calls: no countdown is
ever started and neither the warning nor the shutdown callback ever
fires.  Moreover construction with `empty_minutes ≤ 0` yields such a
state, and an `enable` call with a non-positive value disables the
controller but leaves an already-active countdown task in place (it does
not cancel it). -/
theorem C10_disabled_controller_stays_silent (st : AsmState)
    (evs : List AsmEvent) (hen : st.enabled = false)
    (hcd : st.countdown = none) (hbenign : ∀ e ∈ evs, benign e) :
    ((run st evs).1.enabled = false ∧ (run st evs).1.countdown = none ∧
      (run st evs).2 = []) ∧
    (∀ em : Int, em ≤ 0 → (init em).enabled = false ∧ (init em).countdown = none) ∧
    (∀ (s : AsmState) (v : Int), v ≤ 0 →
      (step s (AsmEvent.enableEv (some v))).1.enabled = false ∧
      (step s (AsmEvent.enableEv (some v))).1.countdown = s.countdown ∧
      (step s (AsmEvent.enableEv (some v))).2 = []) := by
  refine ⟨?_, ?_, ?_⟩
  · induction evs generalizing st with
    | nil => exact ⟨hen, hcd, rfl⟩
    | cons e evs ih =>
      obtain ⟨p1, p2, p3⟩ :=
        step_disabled st e hen hcd (hbenign e (List.mem_cons_self e evs))
      obtain ⟨q1, q2, q3⟩ := ih (step st e).1 p1 p2
        (fun x hx => hbenign x (List.mem_cons_of_mem e hx))
      exact ⟨q1, q2, by simp [run, p3, q3]⟩
  · intro em hem
    constructor
    · simp only [init, decide_eq_false_iff_not]
      omega
    · rfl
  · intro s v hv
    have : decide (v > 0) = false := by
      simp only [decide_eq_false_iff_not]
      omega
    simp [step, this]

/-- Witness for C10 (amended): a controller constructed with
`empty_minutes = -3` run through player-count changes, ticks, a
non-positive `enable` and a `disable`. -/
theorem C10_disabled_controller_stays_silent_witness :
    ((run (init (-3)) [AsmEvent.playerCount 0, AsmEvent.tick,
        AsmEvent.enableEv (some 0), AsmEvent.tick, AsmEvent.disableEv,
        AsmEvent.playerCount 0]).1.enabled = false ∧
      (run (init (-3)) [AsmEvent.playerCount 0, AsmEvent.tick,
        AsmEvent.enableEv (some 0), AsmEvent.tick, AsmEvent.disableEv,
        AsmEvent.playerCount 0]).1.countdown = none ∧
      (run (init (-3)) [AsmEvent.playerCount 0, AsmEvent.tick,
        AsmEvent.enableEv (some 0), AsmEvent.tick, AsmEvent.disableEv,
        AsmEvent.playerCount 0]).2 = []) ∧
    (∀ em : Int, em ≤ 0 → (init em).enabled = false ∧ (init em).countdown = none) ∧
    (∀ (s : AsmState) (v : Int), v ≤ 0 →
      (step s (AsmEvent.enableEv (some v))).1.enabled = false ∧
      (step s (AsmEvent.enableEv (some v))).1.countdown = s.countdown ∧
      (step s (AsmEvent.enableEv (some v))).2 = []) :=
  C10_disabled_controller_stays_silent (init (-3))
    [AsmEvent.playerCount 0, AsmEvent.tick, AsmEvent.enableEv (some 0),
     AsmEvent.tick, AsmEvent.disableEv, AsmEvent.playerCount 0]
    (by decide) (by decide) (by decide)

/-- C10 counterexample: with `empty_minutes = 2` and one player count
drop to zero a countdown task starts; a subsequent `enable(0)` call
disables the controller, yet with no further `enable` the already-active
countdown keeps running and both warning callbacks and the shutdown
callback fire.  This falsifies the claim that after an `enable` call
with a non-positive value neither callback ever fires. -/
theorem C10_enable_zero_leaves_countdown_running :
    (run (init 2) [AsmEvent.playerCount 0, AsmEvent.enableEv (some 0)]).1.enabled
        = false ∧
    (run (init 2) [AsmEvent.playerCount 0, AsmEvent.enableEv (some 0)]).2 = [] ∧
    benign (AsmEvent.enableEv (some 0)) ∧
    AsmOut.shutdownFired ∈
      (run (run (init 2) [AsmEvent.playerCount 0, AsmEvent.enableEv (some 0)]).1
        [AsmEvent.tick, AsmEvent.tick]).2 := by
  refine ⟨by decide, by decide, by decide, by decide⟩

end AutoShutdown

namespace BackupMgr

/-- C4: rotation with `keep_count` over a newest-first record list
deletes only automatic-kind records; every automatic record among the
newest `keep_count` automatic records is retained and every automatic
record beyond them is selected for deletion; in particular with 5
automatic records (ids 1..5, newest first, interleaved with a manual and
a pre-shutdown record) and `keep_count = 2`, exactly the 3 oldest
automatic records are deleted and the manual and pre-shutdown records
are untouched. -/
theorem C4_rotation_deletes_only_old_auto (keep : Nat) (recs : List Backup)
    (hnd : (recs.filter (fun b => b.backup_type == BackupType.auto)).Nodup) :
    (∀ b ∈ rotate_auto_backups keep recs, b.backup_type = BackupType.auto) ∧
    (∀ b ∈ (recs.filter (fun b => b.backup_type == BackupType.auto)).take keep,
      b ∉ rotate_auto_backups keep recs) ∧
    (∀ b ∈ (recs.filter (fun b => b.backup_type == BackupType.auto)).drop keep,
      b ∈ rotate_auto_backups keep recs) ∧
    rotate_auto_backups 2
        [⟨1, BackupType.auto⟩, ⟨2, BackupType.auto⟩, ⟨6, BackupType.manual⟩,
         ⟨3, BackupType.auto⟩, ⟨7, BackupType.pre_shutdown⟩,
         ⟨4, BackupType.auto⟩, ⟨5, BackupType.auto⟩]
      = [⟨3, BackupType.auto⟩, ⟨4, BackupType.auto⟩, ⟨5, BackupType.auto⟩] := by
  refine ⟨?_, ?_, ?_, by decide⟩
  · intro b hb
    rw [rotate_auto_backups] at hb
    split at hb
    · exact absurd hb (List.not_mem_nil b)
    · have hmem : b ∈ recs.filter (fun b => b.backup_type == BackupType.auto) :=
        List.drop_subset keep _ hb
      have := (List.mem_filter.mp hmem).2
      exact beq_iff_eq.mp this
  · intro b hb hcon
    rw [rotate_auto_backups] at hcon
    split at hcon
    · exact absurd hcon (List.not_mem_nil b)
    · exact List.disjoint_take_drop hnd (Nat.le_refl keep) hb hcon
  · intro b hb
    rw [rotate_auto_backups]
    split
    · rename_i hle
      rw [List.drop_eq_nil_of_le hle] at hb
      exact absurd hb (List.not_mem_nil b)
    · exact hb

/-- Witness for C4 at the concrete 7-record list of the claim. -/
theorem C4_rotation_deletes_only_old_auto_witness :
    (∀ b ∈ rotate_auto_backups 2
        [⟨1, BackupType.auto⟩, ⟨2, BackupType.auto⟩, ⟨6, BackupType.manual⟩,
         ⟨3, BackupType.auto⟩, ⟨7, BackupType.pre_shutdown⟩,
         ⟨4, BackupType.auto⟩, ⟨5, BackupType.auto⟩],
      b.backup_type = BackupType.auto) ∧
    rotate_auto_backups 2
        [⟨1, BackupType.auto⟩, ⟨2, BackupType.auto⟩, ⟨6, BackupType.manual⟩,
         ⟨3, BackupType.auto⟩, ⟨7, BackupType.pre_shutdown⟩,
         ⟨4, BackupType.auto⟩, ⟨5, BackupType.auto⟩]
      = [⟨3, BackupType.auto⟩, ⟨4, BackupType.auto⟩, ⟨5, BackupType.auto⟩] :=
  ⟨(C4_rotation_deletes_only_old_auto 2
      [⟨1, BackupType.auto⟩, ⟨2, BackupType.auto⟩, ⟨6, BackupType.manual⟩,
       ⟨3, BackupType.auto⟩, ⟨7, BackupType.pre_shutdown⟩,
       ⟨4, BackupType.auto⟩, ⟨5, BackupType.auto⟩] (by decide)).1,
   (C4_rotation_deletes_only_old_auto 2
      [⟨1, BackupType.auto⟩, ⟨2, BackupType.auto⟩, ⟨6, BackupType.manual⟩,
       ⟨3, BackupType.auto⟩, ⟨7, BackupType.pre_shutdown⟩,
       ⟨4, BackupType.auto⟩, ⟨5, BackupType.auto⟩] (by decide)).2.2.2⟩

/-- C5: restoring a backup whose archive file does not exist fails with
`NotFound` and performs no filesystem effect at all — in particular the
existing world directory is neither deleted nor extracted over,
whether or not it exists. -/
theorem C5_restore_missing_archive_touches_nothing (worldExists : Bool) :
    restore_backup false worldExists
      = (Except.error BackupError.notFound, []) := by
  cases worldExists <;> rfl

/-- C9: the archive created by `_create_archive` always has the literal
directory name `world` as its root entry, independently of the source
path: the first entry is `world`, the result does not depend on the
source path at all, and every entry is `world` itself or lies under
`world/` (is `world/` followed by the member path). -/
theorem C9_archive_root_is_world (source_path : String) (relMembers : List String) :
    (create_archive source_path relMembers).head? = some "world" ∧
    (∀ other_path : String,
      create_archive source_path relMembers = create_archive other_path relMembers) ∧
    (∀ e ∈ create_archive source_path relMembers,
      e = "world" ∨ ∃ rest, e = "world/" ++ rest) := by
  refine ⟨rfl, fun _ => rfl, ?_⟩
  intro e he
  rw [create_archive, tar_add] at he
  rcases List.mem_cons.mp he with h | h
  · exact Or.inl h
  · right
    obtain ⟨r, _, hr⟩ := List.mem_map.mp h
    exact ⟨r, hr ▸ rfl⟩

end BackupMgr

namespace BackupMgr

/-- Witness for C9 at a concrete source path and member list. -/
theorem C9_archive_root_is_world_witness :
    (create_archive "srv" ["level.dat"]).head? = some "world" ∧
    ("world/level.dat" = "world" ∨ ∃ rest, "world/level.dat" = "world/" ++ rest) :=
  ⟨(C9_archive_root_is_world "srv" ["level.dat"]).1,
   (C9_archive_root_is_world "srv" ["level.dat"]).2.2 "world/level.dat" (by decide)⟩

end BackupMgr

namespace ProcHandler

/-- C6: calling `start` while a supervised process is active fails with
the AlreadyRunning outcome — the documented `return False`, distinct
from the success outcome `return True` — and leaves the process and the
recorded state completely unchanged; and calling `start` when no process
is active while the OS cannot create the process fails with the
SpawnError outcome (the raised `RuntimeError`). -/
theorem C6_start_already_running_and_spawn_error :
    (∀ (st : PHState) (spawn : Option Nat), is_running st = true →
      start st spawn = (StartResult.ok false, st)) ∧
    (∀ st : PHState, is_running st = false →
      start st none
        = (StartResult.spawnError,
           { running := false, pid := none, has_process := st.has_process })) := by
  constructor
  · intro st spawn h
    rw [start.eq_def, if_pos h]
  · intro st h
    rw [start.eq_def, if_neg (by rw [h]; exact Bool.false_ne_true)]

/-- Witness for C6 at a concrete running state and a concrete stopped
state. -/
theorem C6_start_already_running_and_spawn_error_witness :
    start ⟨true, some 41, true⟩ (some 77)
        = (StartResult.ok false, ⟨true, some 41, true⟩) ∧
    start ⟨false, none, false⟩ none
        = (StartResult.spawnError, ⟨false, none, false⟩) :=
  ⟨C6_start_already_running_and_spawn_error.1 ⟨true, some 41, true⟩ (some 77) rfl,
   C6_start_already_running_and_spawn_error.2 ⟨false, none, false⟩ rfl⟩

end ProcHandler
